import Mathlib

/-!
# rtsp_to_vlc.c : RTSP pull, drawtext watermark, H.264 re-encode, RTP push

A shallow embedding of `src/rtsp_to_vlc.c`.

The FFmpeg library is an external collaborator.  Its answers are the input of
the model: a run is driven by a script of responses, one response per library
call whose result the program inspects, consumed in call order.  The program is
a transition system whose control points are exactly those calls; every
transition follows the C control flow from the answered call to the next one.
The observable behaviour is the trace of events (calls with their results and
the arguments that matter, releases of resources).  A script that ends before
the program exits describes a run that is still in progress.

Calls whose result the program never inspects and which do not touch a modelled
variable are left out of the trace (printf, fprintf, av_dict_set,
av_init_packet, av_frame_unref, av_packet_unref, av_strdup,
avfilter_inout_free, av_gettime, avformat_network_init and _deinit).

Pointers are modelled by their null-ness.  `int64_t` values are integers
wrapped to 64 bits two's complement by `wrap64`.  Signed overflow is undefined
in C; statements that compare counter values or timestamps as numbers carry the
hypothesis that the frame indexes of the run fit, which is the range in which
the C arithmetic is defined.
-/

namespace RtspToVlc

/-! ## Constants -/

/-- Value of `AVERROR(EAGAIN)` (EAGAIN is 11 on Linux). -/
def AVERROR_EAGAIN : Int := -11

/-- Value of `AVERROR(ENOMEM)` (ENOMEM is 12 on Linux). -/
def AVERROR_ENOMEM : Int := -12

/-- Value of `AVERROR_EOF`, the negated tag of the characters E, O, F, space. -/
def AVERROR_EOF : Int := -541478725

/-- Value of `AVMEDIA_TYPE_VIDEO`. -/
def AVMEDIA_TYPE_VIDEO : Int := 0

/-- The local `timestamp_increment` of the packet loop. -/
def timestamp_increment : Int := 3600

/-- Two's complement wrap of an integer to the range of `int64_t`. -/
def wrap64 (x : Int) : Int := (x + 9223372036854775808) % 18446744073709551616 - 9223372036854775808

/-! ## Strings as byte lists -/

/-- UTF-8 bytes of a string literal, as natural numbers. -/
def bytes (s : String) : List Nat :=
  (s.data.flatMap String.utf8EncodeChar).map UInt8.toNat

/-- The buffer content left by `snprintf(buf, size, ...)` when the formatted
text is `formatted`: at most `size - 1` bytes are kept before the terminator. -/
def snprintf (size : Nat) (formatted : List Nat) : List Nat :=
  formatted.take (size - 1)

/-- The macro `WATERMARK_TEXT`. -/
def WATERMARK_TEXT : List Nat := bytes "测试水印 - %\x7blocaltime\x7d"

/-- The text before `%s` in the drawtext format string of `init_filters`. -/
def filter_descr_head : List Nat := bytes "drawtext=text=\x27"

/-- The text after `%s` in the drawtext format string of `init_filters`. -/
def filter_descr_tail : List Nat :=
  bytes "\x27:fontcolor=white:fontsize=20:x=(w-text_w-10):y=10:box=1:boxcolor=black@0.5"

/-- The content of `filter_descr` (a `char[1024]`) after the `snprintf` of
`init_filters`; `watermark_text` is the content of the C string argument. -/
def filter_descr (watermark_text : List Nat) : List Nat :=
  snprintf 1024 (filter_descr_head ++ watermark_text ++ filter_descr_tail)

/-! ## Data model -/

/-- The fields of `AVPacket` that the program reads or writes. -/
structure AVPacket where
  pts : Int
  dts : Int
  stream_index : Int
  flags : Int
  duration : Int
  pos : Int
deriving DecidableEq, Repr

/-- The library calls whose result the program inspects, in source order.
Where one function is called at several places the place is part of the name. -/
inductive Call where
  | avformat_open_input
  | avformat_find_stream_info
  | avcodec_find_decoder
  | avcodec_alloc_context3_dec
  | avcodec_parameters_to_context
  | avcodec_open2_dec
  | avformat_alloc_output_context2
  | avformat_new_stream
  | avcodec_parameters_copy
  | avio_open
  | avformat_write_header
  | avfilter_graph_alloc
  | avfilter_graph_create_filter_in
  | avfilter_graph_create_filter_out
  | avfilter_inout_alloc_outputs
  | avfilter_inout_alloc_inputs
  | avfilter_graph_parse_ptr
  | avfilter_graph_config
  | av_frame_alloc_frame
  | av_frame_alloc_filt_frame
  | av_read_frame
  | avcodec_send_packet
  | avcodec_receive_frame
  | av_buffersrc_add_frame_flags
  | av_buffersink_get_frame
  | avcodec_find_encoder_by_name
  | avcodec_find_encoder
  | avcodec_alloc_context3_enc
  | avcodec_open2_enc
  | avcodec_send_frame
  | avcodec_receive_packet
  | av_interleaved_write_frame
deriving DecidableEq, Repr

/-- The resources named by the teardown of `main`. -/
inductive Resource where
  | input_format_ctx
  | dec_ctx
  | output_format_ctx
  | output_pb
  | graph
  | frame
  | filt_frame
  | enc_ctx
deriving DecidableEq, Repr

/-- One response of the library: the returned `int` (for a call returning a
pointer, zero stands for NULL), and the packet filled in by `av_read_frame` or
`avcodec_receive_packet`. -/
structure Resp where
  ret : Int
  pkt : AVPacket
deriving DecidableEq, Repr

/-- Observable events of a run. -/
inductive Event where
  /-- a library call and its result -/
  | call (c : Call) (ret : Int)
  /-- `avfilter_graph_parse_ptr(graph, filter_descr, ...)` and its result -/
  | graph_parse (filter_descr : List Nat) (ret : Int)
  /-- `avcodec_send_frame(enc_ctx, filt_frame)` with `filt_frame->pts`, and its result -/
  | send_frame (pts : Int) (ret : Int)
  /-- `av_interleaved_write_frame(output_format_ctx, &enc_pkt)` with the packet as
  passed, the value of `frame_count` at the call, and its result -/
  | write (pkt : AVPacket) (frame_count : Int) (ret : Int)
  /-- `av_write_trailer(output_format_ctx)` -/
  | av_write_trailer
  /-- a release call applied to a non-null resource -/
  | release (r : Resource)
  /-- `avfilter_graph_free(&filter_graph)` at label `end` of `init_filters`: the
  argument is the address of the parameter, not the local `graph` -/
  | avfilter_graph_free_param
deriving DecidableEq, Repr

/-- Control point: waiting for the result of a call, or returned from `main`. -/
inductive Loc where
  | pending (c : Call)
  | exited (code : Int)
deriving DecidableEq, Repr

/-- The variables of `main` (and the two block-scope statics). -/
structure State where
  pc : Loc
  /-- codec types of `input_format_ctx->streams` -/
  streams : List Int
  video_stream_idx : Int
  ret : Int
  input_format_ctx : Bool
  dec_ctx : Bool
  output_format_ctx : Bool
  output_pb : Bool
  filter_graph : Bool
  frame : Bool
  filt_frame : Bool
  /-- the local `outputs` of `init_filters` -/
  outputs : Bool
  /-- `static AVCodecContext *enc_ctx` -/
  enc_ctx : Bool
  /-- `static int64_t frame_count` -/
  frame_count : Int
  /-- `filt_frame->pts` -/
  filt_frame_pts : Int
  enc_pkt : AVPacket
deriving DecidableEq, Repr

/-- Input of a run: the argument count, the codec types of the streams the
source announces, and the responses of the library. -/
structure Input where
  argc : Int
  streams : List Int
  script : List Resp

/-! ## The program -/

/-- The scan `for (i = 0; i < nb_streams; i++)` for the first video stream,
started at index `i`; `-1` (the initial value of `video_stream_idx`) when the
scan ends without a hit. -/
def find_video_stream : List Int → Int → Int
  | [], _ => -1
  | codec_type :: rest, i =>
    if codec_type = AVMEDIA_TYPE_VIDEO then i else find_video_stream rest (i + 1)

/-- The assignments to `enc_pkt` between `avcodec_receive_packet` and
`av_interleaved_write_frame`. -/
def stamp (frame_count : Int) (enc_pkt : AVPacket) : AVPacket :=
  let pts := wrap64 (frame_count * timestamp_increment)
  { enc_pkt with pts := pts, dts := pts, stream_index := 0,
                 duration := timestamp_increment, pos := -1 }

/-- The variables at entry of `main`, before the first library call. -/
def init (streams : List Int) : State :=
  { pc := .pending .avformat_open_input, streams := streams, video_stream_idx := -1, ret := 0,
    input_format_ctx := false, dec_ctx := false, output_format_ctx := false, output_pb := false,
    filter_graph := false, frame := false, filt_frame := false, outputs := false,
    enc_ctx := false, frame_count := 0, filt_frame_pts := 0,
    enc_pkt := { pts := 0, dts := 0, stream_index := 0, flags := 0, duration := 0, pos := 0 } }

/-- Label `end` of `main`: the cleanup, then `return 0`. -/
def main_end (s : State) : State × List Event :=
  ({ s with pc := .exited 0, dec_ctx := false, filter_graph := false, frame := false,
            filt_frame := false, input_format_ctx := false,
            output_pb := if s.output_format_ctx then false else s.output_pb },
   (if s.dec_ctx then [.release .dec_ctx] else []) ++
   (if s.filter_graph then [.release .graph] else []) ++
   (if s.frame then [.release .frame] else []) ++
   (if s.filt_frame then [.release .filt_frame] else []) ++
   (if s.input_format_ctx then [.release .input_format_ctx] else []) ++
   (if s.output_format_ctx then
      (if s.output_pb then [.release .output_pb] else []) ++ [.release .output_format_ctx]
    else []))

/-- A `goto end` in `main` after the events `evs`. -/
def goto_end (s : State) (evs : List Event) : State × List Event :=
  ((main_end s).1, evs ++ (main_end s).2)

/-- Label `end` of `init_filters` (which returns a negative `ret`), followed by
the `goto end` of `main` that the negative return value triggers. -/
def init_filters_end (s : State) (evs : List Event) : State × List Event :=
  goto_end s (evs ++ [.avfilter_graph_free_param])

/-- Leaving the stream loop by `break`: the trailer, then label `end`. -/
def break_stream_loop (s : State) (evs : List Event) : State × List Event :=
  goto_end s (evs ++ [.av_write_trailer])

/-- Leaving the filter drain loop by `break`: `av_frame_unref(frame)`, then the
test `while (ret >= 0)` of the decode drain loop; when it fails the stream loop
reads the next packet. -/
def after_filter_loop (s : State) : State :=
  if s.ret ≥ 0 then { s with pc := .pending .avcodec_receive_frame }
  else { s with pc := .pending .av_read_frame }

/-- Leaving the packet drain loop: `frame_count++`, then the next round of the
filter drain loop `while (1)`. -/
def after_encode_loop (s : State) : State :=
  { s with frame_count := wrap64 (s.frame_count + 1), pc := .pending .av_buffersink_get_frame }

/-- Submitting the filtered frame: `filt_frame->pts = frame_count`, then
`avcodec_send_frame`. -/
def submit_frame (s : State) : State :=
  { s with filt_frame_pts := s.frame_count, pc := .pending .avcodec_send_frame }

/-- One transition: the pending call returns `r`; the program runs up to its
next inspected call (or to its exit).  The result is the new state and the
events of the transition, the answered call first. -/
def step (s : State) (r : Resp) : State × List Event :=
  match s.pc with
  | .exited _ => (s, [])
  | .pending c =>
    let ev : List Event := [.call c r.ret]
    match c with
    | .avformat_open_input =>
      let s := { s with ret := r.ret }
      if r.ret < 0 then ({ s with pc := .exited 1 }, ev)
      else ({ s with input_format_ctx := true, pc := .pending .avformat_find_stream_info }, ev)
    | .avformat_find_stream_info =>
      let s := { s with ret := r.ret }
      if r.ret < 0 then goto_end s ev
      else
        let s := { s with video_stream_idx := find_video_stream s.streams 0 }
        if s.video_stream_idx = -1 then goto_end s ev
        else ({ s with pc := .pending .avcodec_find_decoder }, ev)
    | .avcodec_find_decoder =>
      if r.ret = 0 then goto_end s ev
      else ({ s with pc := .pending .avcodec_alloc_context3_dec }, ev)
    | .avcodec_alloc_context3_dec =>
      let s := { s with dec_ctx := decide (r.ret ≠ 0) }
      if r.ret = 0 then goto_end s ev
      else ({ s with pc := .pending .avcodec_parameters_to_context }, ev)
    | .avcodec_parameters_to_context =>
      let s := { s with ret := r.ret }
      if r.ret < 0 then goto_end s ev
      else ({ s with pc := .pending .avcodec_open2_dec }, ev)
    | .avcodec_open2_dec =>
      let s := { s with ret := r.ret }
      if r.ret < 0 then goto_end s ev
      else ({ s with pc := .pending .avformat_alloc_output_context2 }, ev)
    | .avformat_alloc_output_context2 =>
      let s := { s with output_format_ctx := decide (r.ret ≠ 0) }
      if r.ret = 0 then goto_end s ev
      else ({ s with pc := .pending .avformat_new_stream }, ev)
    | .avformat_new_stream =>
      if r.ret = 0 then goto_end s ev
      else ({ s with pc := .pending .avcodec_parameters_copy }, ev)
    | .avcodec_parameters_copy =>
      let s := { s with ret := r.ret }
      if r.ret < 0 then goto_end s ev
      else ({ s with pc := .pending .avio_open }, ev)
    | .avio_open =>
      let s := { s with ret := r.ret }
      if r.ret < 0 then goto_end s ev
      else ({ s with output_pb := true, pc := .pending .avformat_write_header }, ev)
    | .avformat_write_header =>
      let s := { s with ret := r.ret }
      if r.ret < 0 then goto_end s ev
      else ({ s with pc := .pending .avfilter_graph_alloc }, ev)
    -- init_filters
    | .avfilter_graph_alloc =>
      if r.ret = 0 then goto_end { s with ret := AVERROR_ENOMEM } ev
      else ({ s with pc := .pending .avfilter_graph_create_filter_in }, ev)
    | .avfilter_graph_create_filter_in =>
      let s := { s with ret := r.ret }
      if r.ret < 0 then init_filters_end s ev
      else ({ s with pc := .pending .avfilter_graph_create_filter_out }, ev)
    | .avfilter_graph_create_filter_out =>
      let s := { s with ret := r.ret }
      if r.ret < 0 then init_filters_end s ev
      else ({ s with pc := .pending .avfilter_inout_alloc_outputs }, ev)
    | .avfilter_inout_alloc_outputs =>
      ({ s with outputs := decide (r.ret ≠ 0), pc := .pending .avfilter_inout_alloc_inputs }, ev)
    | .avfilter_inout_alloc_inputs =>
      if s.outputs = false ∨ r.ret = 0 then init_filters_end { s with ret := AVERROR_ENOMEM } ev
      else ({ s with pc := .pending .avfilter_graph_parse_ptr }, ev)
    | .avfilter_graph_parse_ptr =>
      let s := { s with ret := r.ret }
      let ev : List Event := [.graph_parse (filter_descr WATERMARK_TEXT) r.ret]
      if r.ret < 0 then init_filters_end s ev
      else ({ s with pc := .pending .avfilter_graph_config }, ev)
    | .avfilter_graph_config =>
      let s := { s with ret := r.ret }
      if r.ret < 0 then init_filters_end s ev
      else ({ s with filter_graph := true, ret := 0, pc := .pending .av_frame_alloc_frame }, ev)
    -- back in main
    | .av_frame_alloc_frame =>
      ({ s with frame := decide (r.ret ≠ 0), pc := .pending .av_frame_alloc_filt_frame }, ev)
    | .av_frame_alloc_filt_frame =>
      let s := { s with filt_frame := decide (r.ret ≠ 0) }
      if s.frame = false ∨ s.filt_frame = false then goto_end { s with ret := AVERROR_ENOMEM } ev
      else ({ s with pc := .pending .av_read_frame }, ev)
    -- the stream loop
    | .av_read_frame =>
      let s := { s with ret := r.ret }
      if r.ret < 0 then break_stream_loop s ev
      else if r.pkt.stream_index = s.video_stream_idx then
        ({ s with pc := .pending .avcodec_send_packet }, ev)
      else ({ s with pc := .pending .av_read_frame }, ev)
    | .avcodec_send_packet =>
      let s := { s with ret := r.ret }
      if r.ret < 0 then break_stream_loop s ev
      else ({ s with pc := .pending .avcodec_receive_frame }, ev)
    | .avcodec_receive_frame =>
      let s := { s with ret := r.ret }
      if r.ret = AVERROR_EAGAIN ∨ r.ret = AVERROR_EOF then ({ s with pc := .pending .av_read_frame }, ev)
      else if r.ret < 0 then goto_end s ev
      else ({ s with pc := .pending .av_buffersrc_add_frame_flags }, ev)
    | .av_buffersrc_add_frame_flags =>
      let s := { s with ret := r.ret }
      if r.ret < 0 then ({ s with pc := .pending .av_read_frame }, ev)
      else ({ s with pc := .pending .av_buffersink_get_frame }, ev)
    | .av_buffersink_get_frame =>
      let s := { s with ret := r.ret }
      if r.ret = AVERROR_EAGAIN ∨ r.ret = AVERROR_EOF then (after_filter_loop s, ev)
      else if r.ret < 0 then goto_end s ev
      else if s.enc_ctx = false then ({ s with pc := .pending .avcodec_find_encoder_by_name }, ev)
      else (submit_frame s, ev)
    | .avcodec_find_encoder_by_name =>
      if r.ret = 0 then ({ s with pc := .pending .avcodec_find_encoder }, ev)
      else ({ s with pc := .pending .avcodec_alloc_context3_enc }, ev)
    | .avcodec_find_encoder =>
      if r.ret = 0 then (after_filter_loop s, ev)
      else ({ s with pc := .pending .avcodec_alloc_context3_enc }, ev)
    | .avcodec_alloc_context3_enc =>
      let s := { s with enc_ctx := decide (r.ret ≠ 0) }
      if r.ret = 0 then (after_filter_loop s, ev)
      else ({ s with pc := .pending .avcodec_open2_enc }, ev)
    | .avcodec_open2_enc =>
      let s := { s with ret := r.ret }
      if r.ret < 0 then (after_filter_loop { s with enc_ctx := false }, ev ++ [.release .enc_ctx])
      else (submit_frame s, ev)
    | .avcodec_send_frame =>
      let s := { s with ret := r.ret }
      let ev : List Event := [.send_frame s.filt_frame_pts r.ret]
      if r.ret < 0 then (after_filter_loop s, ev)
      else ({ s with pc := .pending .avcodec_receive_packet }, ev)
    | .avcodec_receive_packet =>
      let s := { s with ret := r.ret }
      if r.ret = AVERROR_EAGAIN ∨ r.ret = AVERROR_EOF then (after_encode_loop s, ev)
      else if r.ret < 0 then (after_encode_loop s, ev)
      else ({ s with enc_pkt := stamp s.frame_count r.pkt,
                     pc := .pending .av_interleaved_write_frame }, ev)
    | .av_interleaved_write_frame =>
      let s := { s with ret := r.ret }
      let ev : List Event := [.write s.enc_pkt s.frame_count r.ret]
      if r.ret < 0 then (after_encode_loop s, ev)
      else ({ s with pc := .pending .avcodec_receive_packet }, ev)

/-- A run in progress: the state and the trace so far, oldest event first. -/
structure Run where
  state : State
  trace : List Event

/-- Advance a run by one response. -/
def Run.next (run : Run) (r : Resp) : Run :=
  { state := (step run.state r).1, trace := run.trace ++ (step run.state r).2 }

/-- Advance a run through a script of responses. -/
def exec (run : Run) (script : List Resp) : Run :=
  script.foldl Run.next run

/-- The program: the argument check, then the transitions driven by the script. -/
def main (inp : Input) : Run :=
  if inp.argc ≠ 2 then { state := { init inp.streams with pc := .exited 1 }, trace := [] }
  else exec { state := init inp.streams, trace := [] } inp.script

/-- Exit code of a run, when `main` has returned. -/
def Run.exit_code (run : Run) : Option Int :=
  match run.state.pc with
  | .exited code => some code
  | .pending _ => none

/-! ## Observations on traces -/

/-- A successful `avcodec_send_frame`: a filtered frame accepted by the encoder. -/
def is_submit : Event → Bool
  | .send_frame _ ret => decide (0 ≤ ret)
  | _ => false

/-- Number of filtered frames accepted by the encoder in a trace. -/
def submitted (tr : List Event) : Nat := tr.countP is_submit

/-- An event that ends the packet drain loop of a submitted frame: a negative
`avcodec_receive_packet` (EAGAIN and EOF included) or a failed write. -/
def ends_encode : Event → Bool
  | .call .avcodec_receive_packet ret => decide (ret < 0)
  | .write _ _ ret => decide (ret < 0)
  | _ => false

/-- Number of filtered frames whose encode stage (submit and packet drain) is
complete in a trace. -/
def completed (tr : List Event) : Nat := tr.countP ends_encode

/-- Whether control is inside the packet drain loop (1) or not (0). -/
def in_encode_loop (pc : Loc) : Int :=
  if pc = .pending .avcodec_receive_packet ∨ pc = .pending .av_interleaved_write_frame then 1 else 0

/-- A successful `avcodec_open2` of the lazily built encoder: the end of a
successful construction. -/
def is_construction : Event → Bool
  | .call .avcodec_open2_enc ret => decide (0 ≤ ret)
  | _ => false

/-- Number of successful encoder constructions in a trace. -/
def constructions (tr : List Event) : Nat := tr.countP is_construction

/-- A call of the lookup / allocate / open sequence of the encoder. -/
def is_construction_call : Event → Bool
  | .call .avcodec_find_encoder_by_name _ => true
  | .call .avcodec_find_encoder _ => true
  | .call .avcodec_alloc_context3_enc _ => true
  | .call .avcodec_open2_enc _ => true
  | _ => false

/-- A filtered frame offered to the encoder (`avcodec_send_frame`, any result). -/
def is_send_frame : Event → Bool
  | .send_frame _ _ => true
  | _ => false

/-- Every event of `tr` satisfies `Q`, which may look at the events before it;
`pre` is what came before `tr`. -/
def GoodFrom (Q : List Event → Event → Prop) (pre : List Event) : List Event → Prop
  | [] => True
  | e :: rest => Q pre e ∧ GoodFrom Q (pre ++ [e]) rest

/-- What the frame counter discipline says about an event, given the events
before it. -/
def stamped_event (pre : List Event) : Event → Prop
  | .write pkt frame_count _ =>
      frame_count = wrap64 ((submitted pre : Int) - 1) ∧
      pkt.pts = wrap64 (frame_count * 3600) ∧ pkt.dts = pkt.pts ∧ pkt.duration = 3600 ∧
      pkt.stream_index = 0 ∧ pkt.pos = -1
  | .send_frame pts _ => pts = wrap64 (submitted pre)
  | _ => True

/-- Invariant tying the frame counter to the trace. -/
structure CounterInv (run : Run) : Prop where
  fc : run.state.frame_count = wrap64 (completed run.trace)
  sub : (submitted run.trace : Int) = completed run.trace + in_encode_loop run.state.pc
  pts : run.state.pc = .pending .avcodec_send_frame →
    run.state.filt_frame_pts = run.state.frame_count
  pkt : run.state.pc = .pending .av_interleaved_write_frame →
    run.state.enc_pkt.pts = wrap64 (run.state.frame_count * 3600) ∧
    run.state.enc_pkt.dts = run.state.enc_pkt.pts ∧ run.state.enc_pkt.duration = 3600 ∧
    run.state.enc_pkt.stream_index = 0 ∧ run.state.enc_pkt.pos = -1
  good : GoodFrom stamped_event [] run.trace

/-- The value of `enc_ctx` at a control point, given the number of successful
constructions so far: non-null while the fresh context awaits `avcodec_open2`,
null during lookup and allocation, and otherwise non-null exactly when a
construction succeeded. -/
def expected_enc_ctx (pc : Loc) (n : Nat) : Bool :=
  if pc = .pending .avcodec_open2_enc then true
  else if pc = .pending .avcodec_find_encoder_by_name ∨ pc = .pending .avcodec_find_encoder ∨
      pc = .pending .avcodec_alloc_context3_enc then false
  else decide (n = 1)

/-- Control is inside the lookup / allocate / open sequence of the encoder. -/
def building_encoder (pc : Loc) : Prop :=
  pc = .pending .avcodec_find_encoder_by_name ∨ pc = .pending .avcodec_find_encoder ∨
  pc = .pending .avcodec_alloc_context3_enc ∨ pc = .pending .avcodec_open2_enc

/-- Control is at a call that uses the encoder. -/
def using_encoder (pc : Loc) : Prop :=
  pc = .pending .avcodec_send_frame ∨ pc = .pending .avcodec_receive_packet ∨
  pc = .pending .av_interleaved_write_frame

/-- What lazy construction says about an event, given the events before it: a
call of the construction sequence happens only while no construction has
succeeded, and a frame is offered to the encoder only after exactly one. -/
def built_event (pre : List Event) (e : Event) : Prop :=
  (is_construction_call e = true → constructions pre = 0) ∧
  (is_send_frame e = true → constructions pre = 1)

/-- Invariant tying `enc_ctx` to the trace. -/
structure EncInv (run : Run) : Prop where
  le : constructions run.trace ≤ 1
  building : building_encoder run.state.pc → constructions run.trace = 0
  ctx : run.state.enc_ctx = expected_enc_ctx run.state.pc (constructions run.trace)
  using_enc : using_encoder run.state.pc → constructions run.trace = 1
  good : GoodFrom built_event [] run.trace

/-! ## Sample responses, for concrete runs -/

/-- A response carrying only a return value. -/
def reply (ret : Int) : Resp :=
  { ret := ret, pkt := { pts := 0, dts := 0, stream_index := 0, flags := 0, duration := 0, pos := 0 } }

/-- A successful `av_read_frame` delivering a packet of stream `stream_index`. -/
def reply_read (stream_index : Int) : Resp :=
  { ret := 0, pkt := { pts := 0, dts := 0, stream_index := stream_index, flags := 0, duration := 0, pos := 0 } }

/-- A successful `avcodec_receive_packet` delivering `pkt`. -/
def reply_packet (pkt : AVPacket) : Resp := { ret := 0, pkt := pkt }

/-- A packet as an encoder might fill it, with fields unrelated to the frame counter. -/
def sample_packet : AVPacket :=
  { pts := 777, dts := 555, stream_index := 3, flags := 1, duration := 40, pos := 1234 }

/-- Responses of the twenty startup calls, all successful: from
`avformat_open_input` to the second `av_frame_alloc`. -/
def startup_ok : List Resp :=
  [reply 0, reply 0, reply 1, reply 1, reply 0, reply 0, reply 1, reply 1, reply 0, reply 0,
   reply 0, reply 1, reply 0, reply 0, reply 1, reply 1, reply 0, reply 0, reply 1, reply 1]

/-- Responses for one video access unit up to a filtered frame: read, decoder
submit, one decoded frame, filter push, one filtered frame. -/
def unit_to_filtered_frame : List Resp :=
  [reply_read 0, reply 0, reply 0, reply 0, reply 0]

/-- Responses of a successful lazy construction of the encoder: `libx264`
found, context allocated, encoder opened. -/
def encoder_ok : List Resp := [reply 1, reply 1, reply 0]

/-- Responses of one submitted frame for which the encoder emits one packet
that is written: submit, packet, write, then "not ready". -/
def frame_one_packet : List Resp :=
  [reply 0, reply_packet sample_packet, reply 0, reply AVERROR_EAGAIN]

/-- Responses of one submitted frame for which the encoder emits two packets
that are both written: submit, packet, write, packet, write, then "not ready". -/
def frame_two_packets : List Resp :=
  [reply 0, reply_packet sample_packet, reply 0, reply_packet sample_packet, reply 0,
   reply AVERROR_EAGAIN]

/-- A session with one video access unit whose decoded frame yields two
filtered frames, each encoded into one packet; the run is then waiting for the
next access unit. -/
def one_unit_two_frames : Input :=
  { argc := 2, streams := [0],
    script := startup_ok ++ unit_to_filtered_frame ++ encoder_ok ++ frame_one_packet ++
      [reply 0] ++ frame_one_packet ++ [reply AVERROR_EAGAIN] }

/-- A session with one video access unit and one filtered frame for which the
encoder emits two packets; the run is then waiting for the next access unit. -/
def one_frame_two_packets : Input :=
  { argc := 2, streams := [0],
    script := startup_ok ++ unit_to_filtered_frame ++ encoder_ok ++ frame_two_packets ++
      [reply AVERROR_EAGAIN] }

/-- The `pts` of the packets written to the sink, in the order of the writes. -/
def written_pts : List Event → List Int
  | [] => []
  | .write pkt _ _ :: rest => pkt.pts :: written_pts rest
  | _ :: rest => written_pts rest

/-- Whether each number of the list is strictly greater than the one before it. -/
def strictly_increasing : List Int → Bool
  | a :: b :: rest => decide (a < b) && strictly_increasing (b :: rest)
  | _ => true

/-- A video access unit accepted by the decoder (`avcodec_send_packet` succeeded). -/
def is_video_unit : Event → Bool
  | .call .avcodec_send_packet ret => decide (0 ≤ ret)
  | _ => false

/-- Number of video access units that entered the pipeline in a trace. -/
def video_units (tr : List Event) : Nat := tr.countP is_video_unit

/-- Value of `AVERROR_INVALIDDATA`, the negated tag of the characters I, N, D, A. -/
def AVERROR_INVALIDDATA : Int := -1094995529

/-- Value of `AVERROR(EINVAL)` (EINVAL is 22 on Linux). -/
def AVERROR_EINVAL : Int := -22

/-- A source that announces two audio tracks and no video track
(`AVMEDIA_TYPE_AUDIO` is 1); it opens and probes successfully. -/
def no_video_source : Input :=
  { argc := 2, streams := [1, 1], script := [reply 0, reply 0] }

/-- A session that encodes one frame into two packets and then meets
end-of-stream on read. -/
def one_frame_then_eof : Input :=
  { argc := 2, streams := [0],
    script := one_frame_two_packets.script ++ [reply AVERROR_EOF] }

/-- A startup in which `avfilter_graph_alloc` succeeds and
`avfilter_graph_parse_ptr` then fails inside `init_filters`. -/
def filter_parse_fails : Input :=
  { argc := 2, streams := [0],
    script := startup_ok.take 16 ++ [reply AVERROR_EINVAL] }

/-- A session whose first video access unit is accepted by the decoder, after
which `avcodec_receive_frame` reports invalid data. -/
def decoder_receive_fails : Input :=
  { argc := 2, streams := [0],
    script := startup_ok ++ [reply_read 0, reply 0, reply AVERROR_INVALIDDATA] }

/-- A session whose first video access unit is decoded and pushed into the
filter graph, after which `av_buffersink_get_frame` reports invalid data. -/
def filter_sink_fails : Input :=
  { argc := 2, streams := [0],
    script := startup_ok ++ [reply_read 0, reply 0, reply 0, reply 0, reply AVERROR_INVALIDDATA] }

/-- A session whose first video access unit is refused by `avcodec_send_packet`. -/
def decoder_submit_fails : Input :=
  { argc := 2, streams := [0],
    script := startup_ok ++ [reply_read 0, reply AVERROR_INVALIDDATA] }

/-- A session in which the first video access unit gives a decoded frame, a
filtered frame and a written packet, and the filter sink then reports "not
ready": the script says nothing yet about a further `avcodec_receive_frame`. -/
def one_unit_one_frame : Input :=
  { argc := 2, streams := [0],
    script := startup_ok ++ unit_to_filtered_frame ++ encoder_ok ++ frame_one_packet ++
      [reply AVERROR_EAGAIN] }

/-- A session stopped where the second filtered frame of the first access unit
has just been offered to the encoder (frame index 1), the first one having been
encoded and written. -/
def second_frame_offered : Input :=
  { argc := 2, streams := [0],
    script := startup_ok ++ unit_to_filtered_frame ++ encoder_ok ++ frame_one_packet ++ [reply 0] }

/-- The trailer event. -/
def is_trailer : Event → Bool
  | .av_write_trailer => true
  | _ => false

/-- A release of resource `r`. -/
def is_release (r : Resource) : Event → Bool
  | .release r' => decide (r' = r)
  | _ => false

/-- A successful allocation of the encoder context. -/
def is_enc_alloc : Event → Bool
  | .call .avcodec_alloc_context3_enc ret => decide (ret ≠ 0)
  | _ => false

/-- A successful allocation of the filter graph. -/
def is_graph_alloc : Event → Bool
  | .call .avfilter_graph_alloc ret => decide (ret ≠ 0)
  | _ => false

/-- The results of the `avcodec_receive_frame` calls of a trace, in order. -/
def receive_frame_results : List Event → List Int
  | [] => []
  | .call .avcodec_receive_frame ret :: rest => ret :: receive_frame_results rest
  | _ :: rest => receive_frame_results rest

/-- An operation on the sink: header, packet write or trailer. -/
def is_sink_operation : Event → Bool
  | .call .avformat_write_header _ => true
  | .write _ _ _ => true
  | .av_write_trailer => true
  | _ => false

/-- An error reported by the encoder while draining packets: a negative
`avcodec_receive_packet` other than EAGAIN and EOF. -/
def is_receive_error : Event → Bool
  | .call .avcodec_receive_packet ret =>
      decide (ret < 0 ∧ ret ≠ AVERROR_EAGAIN ∧ ret ≠ AVERROR_EOF)
  | _ => false

/-- Number of packet drain errors of the encoder in a trace. -/
def receive_errors (tr : List Event) : Nat := tr.countP is_receive_error

/-- A session of three video access units, one filtered frame each: the first
is encoded and written; the second is accepted by the encoder, which then
reports invalid data on `avcodec_receive_packet`; the third is encoded and
written. -/
def receive_packet_error_run : Input :=
  { argc := 2, streams := [0],
    script := startup_ok ++ unit_to_filtered_frame ++ encoder_ok ++ frame_one_packet ++
      [reply AVERROR_EAGAIN] ++
      unit_to_filtered_frame ++ [reply 0, reply AVERROR_INVALIDDATA, reply AVERROR_EAGAIN] ++
      unit_to_filtered_frame ++ frame_one_packet ++ [reply AVERROR_EAGAIN] }

/-! ## Generic lemmas -/

theorem wrap64_succ (x : Int) : wrap64 (wrap64 x + 1) = wrap64 (x + 1) := by
  unfold wrap64; omega

theorem wrap64_of_range (x : Int) (h1 : -9223372036854775808 ≤ x) (h2 : x < 9223372036854775808) :
    wrap64 x = x := by
  unfold wrap64; omega

theorem GoodFrom_append (Q : List Event → Event → Prop) (pre a b : List Event) :
    GoodFrom Q pre (a ++ b) ↔ GoodFrom Q pre a ∧ GoodFrom Q (pre ++ a) b := by
  induction a generalizing pre with
  | nil => simp [GoodFrom]
  | cons e rest ih => simp [GoodFrom, ih, and_assoc]

theorem GoodFrom_of_forall (Q : List Event → Event → Prop) (pre l : List Event)
    (h : ∀ e ∈ l, ∀ p, Q p e) : GoodFrom Q pre l := by
  induction l generalizing pre with
  | nil => simp [GoodFrom]
  | cons e rest ih =>
    exact ⟨h e (by simp) pre, ih _ (fun e' he' => h e' (by simp [he']))⟩

theorem GoodFrom_split (Q : List Event → Event → Prop) (p tr : List Event)
    (h : GoodFrom Q p tr) (pre : List Event) (e : Event) (post : List Event)
    (hd : tr = pre ++ e :: post) : Q (p ++ pre) e := by
  subst hd
  rw [GoodFrom_append] at h
  exact h.2.1

/-- The events of the cleanup are releases. -/
theorem main_end_events (s : State) : ∀ e ∈ (main_end s).2, ∃ r, e = .release r := by
  intro e he
  simp only [main_end, List.mem_append] at he
  rcases he with ((((he | he) | he) | he) | he) | he
  all_goals (split at he <;> simp at he)
  all_goals first
    | exact ⟨_, he⟩
    | (rcases he with he | he
       · exact ⟨_, he.2⟩
       · exact ⟨_, he⟩)

@[simp] theorem main_end_pc (s : State) : (main_end s).1.pc = .exited 0 := rfl
@[simp] theorem main_end_frame_count (s : State) : (main_end s).1.frame_count = s.frame_count := rfl
@[simp] theorem main_end_enc_ctx (s : State) : (main_end s).1.enc_ctx = s.enc_ctx := rfl

theorem countP_releases (p : Event → Bool) (hp : ∀ r, p (.release r) = false) (l : List Event)
    (hl : ∀ e ∈ l, ∃ r, e = .release r) : l.countP p = 0 := by
  rw [List.countP_eq_zero]
  intro e he
  obtain ⟨r, rfl⟩ := hl e he
  simp [hp]

@[simp] theorem submitted_main_end (s : State) : submitted (main_end s).2 = 0 :=
  countP_releases _ (fun _ => rfl) _ (main_end_events s)

@[simp] theorem completed_main_end (s : State) : completed (main_end s).2 = 0 :=
  countP_releases _ (fun _ => rfl) _ (main_end_events s)

@[simp] theorem constructions_main_end (s : State) : constructions (main_end s).2 = 0 :=
  countP_releases _ (fun _ => rfl) _ (main_end_events s)

@[simp] theorem submitted_append (a b : List Event) :
    submitted (a ++ b) = submitted a + submitted b := by
  simp [submitted]

@[simp] theorem completed_append (a b : List Event) :
    completed (a ++ b) = completed a + completed b := by
  simp [completed]

@[simp] theorem constructions_append (a b : List Event) :
    constructions (a ++ b) = constructions a + constructions b := by
  simp [constructions]

@[simp] theorem submitted_nil : submitted [] = 0 := rfl

@[simp] theorem completed_nil : completed [] = 0 := rfl

@[simp] theorem constructions_nil : constructions [] = 0 := rfl

@[simp] theorem submitted_cons (e : Event) (l : List Event) :
    submitted (e :: l) = submitted l + if is_submit e then 1 else 0 := by
  simp [submitted, List.countP_cons]

@[simp] theorem completed_cons (e : Event) (l : List Event) :
    completed (e :: l) = completed l + if ends_encode e then 1 else 0 := by
  simp [completed, List.countP_cons]

@[simp] theorem constructions_cons (e : Event) (l : List Event) :
    constructions (e :: l) = constructions l + if is_construction e then 1 else 0 := by
  simp [constructions, List.countP_cons]

theorem stamped_main_end (pre : List Event) (s : State) :
    GoodFrom stamped_event pre (main_end s).2 := by
  apply GoodFrom_of_forall
  intro e he p
  obtain ⟨r, rfl⟩ := main_end_events s e he
  simp [stamped_event]

/-! ## The frame counter invariant -/

theorem CounterInv_next (run : Run) (r : Resp) (h : CounterInv run) : CounterInv (run.next r) := by
  obtain ⟨s, tr⟩ := run
  obtain ⟨hfc, hsub, hpts, hpkt, hgood⟩ := h
  simp only at hfc hsub hpts hpkt hgood
  have hneg : r.ret = AVERROR_EAGAIN ∨ r.ret = AVERROR_EOF → r.ret < 0 := by
    unfold AVERROR_EAGAIN AVERROR_EOF; omega
  cases hpc : s.pc with
  | exited code =>
    simp only [hpc, in_encode_loop] at hsub hpts hpkt
    constructor <;> simp [Run.next, step, hpc, in_encode_loop, *]
  | pending c =>
    cases c
    all_goals
      simp only [hpc, in_encode_loop] at hsub hpts hpkt
      simp at hsub hpts hpkt
      simp only [Run.next, step, hpc, goto_end, init_filters_end, break_stream_loop,
          after_filter_loop, after_encode_loop, submit_frame]
      try split_ifs
      all_goals
        constructor <;>
        simp [in_encode_loop, GoodFrom_append, stamped_main_end, wrap64_succ, timestamp_increment,
          GoodFrom, stamped_event, is_submit, ends_encode, stamp, *]
      all_goals try omega

theorem exec_nil (run : Run) : exec run [] = run := rfl

theorem exec_cons (run : Run) (r : Resp) (rest : List Resp) :
    exec run (r :: rest) = exec (run.next r) rest := rfl

theorem exec_append (run : Run) (a b : List Resp) : exec run (a ++ b) = exec (exec run a) b := by
  simp [exec, List.foldl_append]

/-- An invariant of the transitions holds along every script. -/
theorem exec_invariant (P : Run → Prop) (hstep : ∀ run r, P run → P (run.next r))
    (run : Run) (script : List Resp) (h : P run) : P (exec run script) := by
  induction script generalizing run with
  | nil => exact h
  | cons r rest ih => exact ih _ (hstep _ _ h)

/-- The trace only grows. -/
theorem exec_trace_extends (run : Run) (script : List Resp) :
    ∃ more, (exec run script).trace = run.trace ++ more := by
  induction script generalizing run with
  | nil => exact ⟨[], by simp [exec_nil]⟩
  | cons r rest ih =>
    obtain ⟨more, hmore⟩ := ih (run.next r)
    exact ⟨(step run.state r).2 ++ more, by rw [exec_cons, hmore]; simp [Run.next]⟩

/-- Extending the script of an input continues its run. -/
theorem main_extend (inp : Input) (more : List Resp) :
    main { inp with script := inp.script ++ more } =
      if inp.argc ≠ 2 then main inp else exec (main inp) more := by
  unfold main
  split_ifs <;> simp [exec_append]

theorem CounterInv_main (inp : Input) : CounterInv (main inp) := by
  unfold main
  split_ifs
  · constructor <;> simp [init, in_encode_loop, wrap64, GoodFrom]
  · apply exec_invariant CounterInv CounterInv_next
    constructor <;> simp [init, in_encode_loop, wrap64, GoodFrom]

/-- Every event of a run obeys the frame counter discipline. -/
theorem main_stamped (inp : Input) (pre : List Event) (e : Event) (post : List Event)
    (h : (main inp).trace = pre ++ e :: post) : stamped_event pre e := by
  have := GoodFrom_split stamped_event [] _ (CounterInv_main inp).good pre e post h
  simpa using this

/-! ## The lazy encoder invariant -/

theorem built_main_end (pre : List Event) (s : State) :
    GoodFrom built_event pre (main_end s).2 := by
  apply GoodFrom_of_forall
  intro e he p
  obtain ⟨r, rfl⟩ := main_end_events s e he
  simp [built_event, is_construction_call, is_send_frame]

theorem EncInv_next (run : Run) (r : Resp) (h : EncInv run) : EncInv (run.next r) := by
  obtain ⟨s, tr⟩ := run
  obtain ⟨hle, hb, hctx, hu, hgood⟩ := h
  simp only at hle hb hctx hu hgood
  cases hpc : s.pc with
  | exited code =>
    simp only [hpc, building_encoder, using_encoder, expected_enc_ctx] at hb hctx hu
    constructor <;> simp [Run.next, step, hpc, building_encoder, using_encoder, expected_enc_ctx, *]
  | pending c =>
    cases c
    all_goals
      simp only [hpc, building_encoder, using_encoder, expected_enc_ctx] at hb hctx hu
      simp at hb hctx hu
      simp only [Run.next, step, hpc, goto_end, init_filters_end, break_stream_loop,
          after_filter_loop, after_encode_loop, submit_frame]
      try split_ifs
      all_goals
        constructor <;>
        simp [building_encoder, using_encoder, expected_enc_ctx, GoodFrom_append, built_main_end,
          GoodFrom, built_event, is_construction, is_construction_call, is_send_frame, *]
      all_goals first
        | omega
        | (split_ifs <;> omega)
        | (rename_i h1; rw [hctx] at h1; simp at h1; omega)

theorem EncInv_main (inp : Input) : EncInv (main inp) := by
  unfold main
  split_ifs
  · constructor <;> simp [init, building_encoder, using_encoder, expected_enc_ctx, GoodFrom]
  · apply exec_invariant EncInv EncInv_next
    constructor <;> simp [init, building_encoder, using_encoder, expected_enc_ctx, GoodFrom]

/-- Every event of a run obeys the lazy construction discipline. -/
theorem main_built (inp : Input) (pre : List Event) (e : Event) (post : List Event)
    (h : (main inp).trace = pre ++ e :: post) : built_event pre e := by
  have := GoodFrom_split built_event [] _ (EncInv_main inp).good pre e post h
  simpa using this

theorem main_bad_argc (inp : Input) (h : inp.argc ≠ 2) : (main inp).state.pc = .exited 1 := by
  simp [main, h]

theorem main_continue (inp : Input) (more : List Resp)
    (h : ∃ c, (main inp).state.pc = .pending c) :
    main { inp with script := inp.script ++ more } = exec (main inp) more := by
  rw [main_extend]
  split_ifs with hargc
  · obtain ⟨c, hc⟩ := h
    rw [main_bad_argc inp hargc] at hc
    cases hc
  · rfl

/-! ## Claims -/

/-- C1: every packet handed to `av_interleaved_write_frame` carries, at the
moment of the write, `pts = frame_count * 3600` (the `int64_t` product, which is
the exact product whenever that fits in 64 bits), `dts = pts`,
`duration = 3600`, `stream_index = 0` and `pos = -1`, where `frame_count` is the
value of the frame counter at the call; the fields the encoder put into the
packet play no role. -/
theorem written_packet_is_stamped (inp : Input) (pkt : AVPacket) (frame_count ret : Int)
    (h : Event.write pkt frame_count ret ∈ (main inp).trace)
    (hfit : -9223372036854775808 ≤ frame_count * 3600 ∧ frame_count * 3600 < 9223372036854775808) :
    pkt.pts = frame_count * 3600 ∧ pkt.pts = wrap64 (frame_count * timestamp_increment) ∧
    pkt.dts = pkt.pts ∧ pkt.duration = 3600 ∧ pkt.stream_index = 0 ∧ pkt.pos = -1 := by
  obtain ⟨pre, post, hd⟩ := List.append_of_mem h
  have hs := main_stamped inp pre _ post hd
  simp only [stamped_event] at hs
  obtain ⟨-, hpts, hdts, hdur, hidx, hpos⟩ := hs
  refine ⟨?_, ?_, hdts, hdur, hidx, hpos⟩
  · rw [hpts]; exact wrap64_of_range _ hfit.1 hfit.2
  · rw [hpts]; rfl

theorem written_packet_is_stamped_witness :
    Event.write { pts := 3600, dts := 3600, stream_index := 0, flags := 1, duration := 3600,
                  pos := -1 } 1 0 ∈ (main one_unit_two_frames).trace ∧
    (3600 : Int) = 1 * 3600 :=
  ⟨by decide,
   (written_packet_is_stamped one_unit_two_frames
      { pts := 3600, dts := 3600, stream_index := 0, flags := 1, duration := 3600, pos := -1 }
      1 0 (by decide) (by decide)).1⟩

/-- C2, as stated, fails: when the encoder emits two packets for one submitted
frame, the two consecutive writes carry the same `pts` (here 0 and 0), so the
`pts` of the later packet is not strictly greater. -/
theorem same_pts_for_packets_of_one_frame :
    written_pts (main one_frame_two_packets).trace = [0, 0] ∧
    strictly_increasing (written_pts (main one_frame_two_packets).trace) = false := by
  decide

/-- C2, amended: of two packets written one after the other (in any run whose
frame indexes fit the 64-bit timestamps), the later `pts` is greater than or
equal to the earlier one, and it is strictly greater exactly when a frame was
accepted by the encoder between the two writes, that is when the two packets
belong to different submitted frames. -/
theorem written_pts_monotone (inp : Input) (pre mid post : List Event) (a b : AVPacket)
    (fa ra fb rb : Int)
    (h : (main inp).trace = pre ++ Event.write a fa ra :: (mid ++ Event.write b fb rb :: post))
    (hfit : (submitted (main inp).trace : Int) * 3600 < 9223372036854775808) :
    a.pts ≤ b.pts ∧ (a.pts < b.pts ↔ 0 < submitted mid) := by
  have ha := main_stamped inp pre _ _ h
  have hb := main_stamped inp (pre ++ Event.write a fa ra :: mid) (Event.write b fb rb) post
    (by rw [h]; simp)
  simp only [stamped_event] at ha hb
  obtain ⟨hfa, hpa, -⟩ := ha
  obtain ⟨hfb, hpb, -⟩ := hb
  rw [h] at hfit
  simp [is_submit] at hfit hfb
  have e1 : wrap64 ((submitted pre : Int) - 1) = (submitted pre : Int) - 1 :=
    wrap64_of_range _ (by omega) (by omega)
  have e2 : wrap64 ((submitted pre : Int) + submitted mid - 1) = (submitted pre : Int) + submitted mid - 1 :=
    wrap64_of_range _ (by omega) (by omega)
  have e3 : wrap64 (((submitted pre : Int) - 1) * 3600) = ((submitted pre : Int) - 1) * 3600 :=
    wrap64_of_range _ (by omega) (by omega)
  have e4 : wrap64 (((submitted pre : Int) + submitted mid - 1) * 3600)
      = ((submitted pre : Int) + submitted mid - 1) * 3600 :=
    wrap64_of_range _ (by omega) (by omega)
  rw [hpa, hpb, hfa, hfb, e1, e2, e3, e4]
  omega

theorem written_pts_monotone_witness :
    (0 : Int) ≤ 3600 ∧
    ((0 : Int) < 3600 ↔ 0 < submitted (((main one_unit_two_frames).trace.drop 31).take 4)) :=
  written_pts_monotone one_unit_two_frames
    ((main one_unit_two_frames).trace.take 30)
    (((main one_unit_two_frames).trace.drop 31).take 4)
    ((main one_unit_two_frames).trace.drop 36)
    { pts := 0, dts := 0, stream_index := 0, flags := 1, duration := 3600, pos := -1 }
    { pts := 3600, dts := 3600, stream_index := 0, flags := 1, duration := 3600, pos := -1 }
    0 0 1 0 (by decide) (by decide)

/-- C3, as stated, fails: after a single video access unit whose decoded frame
yields two filtered frames, the frame counter is 2 while one access unit has
gone through the pipeline (the run is back at `av_read_frame`). -/
theorem counter_counts_frames_not_units :
    (main one_unit_two_frames).state.frame_count = 2 ∧
    video_units (main one_unit_two_frames).trace = 1 ∧
    (main one_unit_two_frames).state.pc = .pending .av_read_frame := by
  decide

/-- C3, amended: at every point of a run (whose frame count fits 64 bits) the
frame counter equals the number of filtered frames that have completed the
encode stage so far (accepted by `avcodec_send_frame`, packet drain loop
ended), whatever the number of packets each of them produced, and it never
decreases or resets when the run goes on. -/
theorem frame_count_counts_encoded_frames (inp : Input) (more : List Resp)
    (hfit : (completed (main { inp with script := inp.script ++ more }).trace : Int)
      < 9223372036854775808) :
    (main inp).state.frame_count = completed (main inp).trace ∧
    (main { inp with script := inp.script ++ more }).state.frame_count =
      completed (main { inp with script := inp.script ++ more }).trace ∧
    (main inp).state.frame_count ≤
      (main { inp with script := inp.script ++ more }).state.frame_count := by
  have h1 := (CounterInv_main inp).fc
  have h2 := (CounterInv_main { inp with script := inp.script ++ more }).fc
  have hle : completed (main inp).trace ≤
      completed (main { inp with script := inp.script ++ more }).trace := by
    rw [main_extend]
    split_ifs
    · exact le_rfl
    · obtain ⟨t, ht⟩ := exec_trace_extends (main inp) more
      rw [ht, completed_append]
      omega
  rw [h1, h2]
  unfold wrap64
  omega

theorem frame_count_counts_encoded_frames_witness :
    (main one_frame_two_packets).state.frame_count = completed (main one_frame_two_packets).trace ∧
    (main { one_frame_two_packets with
        script := one_frame_two_packets.script ++ unit_to_filtered_frame }).state.frame_count =
      completed (main { one_frame_two_packets with
        script := one_frame_two_packets.script ++ unit_to_filtered_frame }).trace ∧
    (main one_frame_two_packets).state.frame_count ≤
      (main { one_frame_two_packets with
        script := one_frame_two_packets.script ++ unit_to_filtered_frame }).state.frame_count :=
  frame_count_counts_encoded_frames one_frame_two_packets unit_to_filtered_frame (by decide)

/-- C5: in every run the encoder is successfully constructed at most once; once
a construction has succeeded no later event is a call of the lookup / allocate /
open sequence; every frame offered to the encoder is offered after exactly one
successful construction, so a run in which at least one frame is submitted has
exactly one. -/
theorem encoder_constructed_once (inp : Input) :
    constructions (main inp).trace ≤ 1 ∧
    (∀ pre e post, (main inp).trace = pre ++ e :: post → 0 < constructions pre →
      is_construction_call e = false) ∧
    (∀ pre e post, (main inp).trace = pre ++ e :: post → is_send_frame e = true →
      constructions pre = 1 ∧ constructions (main inp).trace = 1) := by
  have hle := (EncInv_main inp).le
  refine ⟨hle, ?_, ?_⟩
  · intro pre e post h hpos
    have hb := (main_built inp pre e post h).1
    cases hc : is_construction_call e with
    | false => rfl
    | true => have := hb hc; omega
  · intro pre e post h hs
    have hb := (main_built inp pre e post h).2 hs
    refine ⟨hb, ?_⟩
    rw [h, constructions_append] at hle ⊢
    omega

theorem encoder_constructed_once_witness :
    constructions ((main one_unit_two_frames).trace.take 33) = 1 ∧
    constructions (main one_unit_two_frames).trace = 1 :=
  (encoder_constructed_once one_unit_two_frames).2.2
    ((main one_unit_two_frames).trace.take 33) (Event.send_frame 1 0)
    ((main one_unit_two_frames).trace.drop 34) (by decide) (by decide)

/-- C8: for every watermark text of at most 933 bytes the filter description
built by `init_filters` is exactly the drawtext prefix, the text unchanged, and
the suffix with `x=(w-text_w-10)`, `box=1` and `boxcolor=black@0.5`; for the
text of `WATERMARK_TEXT` it contains that text between `text='` and `'`. -/
theorem filter_descr_exact (t : List Nat) (h : t.length ≤ 933) :
    filter_descr t =
      bytes "drawtext=text=\x27" ++ t ++
      bytes "\x27:fontcolor=white:fontsize=20:x=(w-text_w-10):y=10:box=1:boxcolor=black@0.5" ∧
    List.IsInfix (bytes "text=\x27测试水印 - %\x7blocaltime\x7d\x27") (filter_descr WATERMARK_TEXT) := by
  constructor
  · have hp : filter_descr_head.length = 15 := by decide
    have hs : filter_descr_tail.length = 75 := by decide
    unfold filter_descr snprintf
    rw [List.take_of_length_le]
    · rfl
    · simp only [List.length_append, hp, hs]
      omega
  · exact ⟨bytes "drawtext=",
      bytes ":fontcolor=white:fontsize=20:x=(w-text_w-10):y=10:box=1:boxcolor=black@0.5",
      by decide⟩

theorem filter_descr_exact_witness :
    filter_descr WATERMARK_TEXT =
      bytes "drawtext=text=\x27" ++ WATERMARK_TEXT ++
      bytes "\x27:fontcolor=white:fontsize=20:x=(w-text_w-10):y=10:box=1:boxcolor=black@0.5" :=
  (filter_descr_exact WATERMARK_TEXT (by decide)).1

/-- C4: for a source with no video track `main` performs no operation on the
sink, but it leaves through label `end` and returns 0, not 1. -/
theorem no_video_track_exits_zero :
    (main no_video_source).exit_code = some 0 ∧
    (main no_video_source).trace =
      [.call .avformat_open_input 0, .call .avformat_find_stream_info 0,
       .release .input_format_ctx] ∧
    (main no_video_source).trace.countP is_sink_operation = 0 := by
  decide

/-- C6: a session that built its encoder and ended by end-of-stream returns
without ever releasing the encoder context; and when `init_filters` fails after
allocating the graph, the graph is not released either. -/
theorem encoder_context_never_released :
    (main one_frame_then_eof).exit_code = some 0 ∧
    (main one_frame_then_eof).trace.countP is_enc_alloc = 1 ∧
    (main one_frame_then_eof).trace.countP (is_release .enc_ctx) = 0 ∧
    (main filter_parse_fails).exit_code = some 0 ∧
    (main filter_parse_fails).trace.countP is_graph_alloc = 1 ∧
    (main filter_parse_fails).trace.countP (is_release .graph) = 0 := by
  decide

/-- C7: when the loop ends by a failure of `avcodec_receive_frame` (or of
`av_buffersink_get_frame`) the program jumps to label `end` and the trailer is
never written, whereas a failure of `avcodec_send_packet` and end-of-stream
both write it once. -/
theorem trailer_skipped_on_receive_failure :
    (main decoder_receive_fails).exit_code = some 0 ∧
    (main decoder_receive_fails).trace.countP is_trailer = 0 ∧
    (main filter_sink_fails).exit_code = some 0 ∧
    (main filter_sink_fails).trace.countP is_trailer = 0 ∧
    (main decoder_submit_fails).trace.countP is_trailer = 1 ∧
    (main one_frame_then_eof).trace.countP is_trailer = 1 := by
  decide

/-- C10: after the first decoded frame of an access unit has been filtered and
encoded and the filter sink reports "not ready", the program reads the next
access unit: `avcodec_receive_frame` was called once for the unit, it answered
with a frame, and it is not called again to find out whether the decoder has
more. -/
theorem decode_drain_stops_after_one_frame :
    (main one_unit_one_frame).state.pc = .pending .av_read_frame ∧
    receive_frame_results (main one_unit_one_frame).trace = [0] ∧
    (main one_unit_one_frame).trace.getLast? = some (.call .av_buffersink_get_frame AVERROR_EAGAIN) := by
  decide

end RtspToVlc
